import Mathlib

/-!
Verification development for the `config-barcode-extractor` repository
(`index.mjs`, `src/utils.mjs`, `src/rxing.mjs`, and the `BwipBarcodeRenderer`
module).  The JavaScript sources are shallowly embedded: numbers that the
program only ever uses at integral values (pixel coordinates, byte values,
page ids) become `Int`/`Nat`; JavaScript doubles that carry fractional or
irrational values (center distances, angles) become `ℝ`; fallible async
calls (`bwipjs.toBuffer`, `bwipjs.toSVG`) become `Except`-valued function
parameters, and thrown exceptions become `Except.error`.
-/

/-- Axis-aligned bounding box `{x0, y0, x1, y1}` in integer pixel
coordinates, as used by `BboxUtils` in `index.mjs`. -/
structure Bbox where
  x0 : Int
  y0 : Int
  x1 : Int
  y1 : Int
deriving DecidableEq

/-- A 2-D point `{x, y}` (`index.mjs` `Point` typedef). -/
structure Point where
  x : Int
  y : Int
deriving DecidableEq

/-- The `CardinalDirection` enumeration frozen in `index.mjs`. -/
inductive CardinalDirection where
  | NORTH
  | SOUTH
  | WEST
  | EAST
deriving DecidableEq

/-- A barcode quadrilateral position record (`topLeft`/`topRight`/
`bottomLeft`/`bottomRight`), as produced by `rxingBboxToZxingPosition` and
by the zxing decoder. -/
structure Position where
  topLeft : Point
  topRight : Point
  bottomLeft : Point
  bottomRight : Point
deriving DecidableEq

/-- A text line `{text, bbox}` as built from the tesseract blocks in the
per-page loop of `index.mjs`. -/
structure TextLine where
  text : String
  bbox : Bbox
deriving DecidableEq

/-- The format-specific metadata the program reads out of `barcode.extra`
(after `JSON.parse`): the `Version` string and the `DataMask` integer.
Field names follow the JSON keys. -/
structure BarcodeExtra where
  Version : Option String := none
  DataMask : Option Int := none
deriving DecidableEq

/-- A zxing-wasm detected barcode as consumed by the per-page loop of
`index.mjs`: format name, decoded text, validity flag, reader-init flag,
error-correction level, parsed `extra` metadata, the quadrilateral
position, and the raw bytes optionally attached later by the strict-mode
rxing augmentation step. -/
structure Barcode where
  format : String
  text : String
  isValid : Bool
  readerInit : Bool := false
  ecLevel : Option String := none
  extra : BarcodeExtra := {}
  position : Position
  rawBytes : Option (List Nat) := none
deriving DecidableEq

/-- An rxing-wasm detection record as produced by `rxingDetectBarcodes`
(`src/rxing.mjs`): mapped format (or `none` for unknown formats), decoded
text, raw bytes and position. -/
structure RxingResult where
  format : Option String
  text : String
  bytes : List Nat
  position : Position
deriving DecidableEq

/-- `zxingToBwip` from `index.mjs`: format-name normalisation, lowercasing
the decoder-native name (the switch has only the default case).
`name.toLowerCase()` is embedded as a character-wise lowercasing. -/
def zxingToBwip (name : String) : String :=
  String.mk (name.data.map Char.toLower)

/-- `ArrayUtils.seq` (`src/utils.mjs`) / `seq` (`index.mjs`): the loop
`for (let i = min(start, end), j = max(start, end); i <= j; i++) r.push(i)`
produces the ascending integers from `min` to `max` inclusive. -/
def seq (start fin : Int) : List Int :=
  List.map (fun k : Nat => min start fin + (k : Int))
    (List.range ((max start fin) - (min start fin) + 1).toNat)

/-- `ptsToPixel` from `src/utils.mjs`: `(pts) => pts * 0.75`. -/
def ptsToPixel (pts : ℚ) : ℚ :=
  pts * 0.75

/-- `pixelToPts` from `src/utils.mjs`: `(px) => px * 1.33`. -/
def pixelToPts (px : ℚ) : ℚ :=
  px * 1.33

/-- A bounding box with rational coordinates, for stating properties of
the scalar unit converters applied to a box corner-wise. -/
structure QBbox where
  x0 : ℚ
  y0 : ℚ
  x1 : ℚ
  y1 : ℚ
deriving DecidableEq

/-- `ptsToPixel` applied to every coordinate of a box.  The source
provides only the scalar converter and applies no floor or ceil. -/
def bboxPtsToPixel (b : QBbox) : QBbox :=
  { x0 := ptsToPixel b.x0, y0 := ptsToPixel b.y0
    x1 := ptsToPixel b.x1, y1 := ptsToPixel b.y1 }

/-- `pixelToPts` applied to every coordinate of a box. -/
def bboxPixelToPts (b : QBbox) : QBbox :=
  { x0 := pixelToPts b.x0, y0 := pixelToPts b.y0
    x1 := pixelToPts b.x1, y1 := pixelToPts b.y1 }

/-- JavaScript `a >>> 1` for an integral number `a`: `ToUint32` (reduction
mod `2^32`) followed by one right shift. -/
def ushr1 (a : Int) : Int :=
  (a % 4294967296) / 2

/-- `BboxUtils.bboxCenterPoint`:
`{x: x0 + ((x1 - x0) >>> 1), y: y0 + ((y1 - y0) >>> 1)}`. -/
def bboxCenterPoint (bbox : Bbox) : Point :=
  { x := bbox.x0 + ushr1 (bbox.x1 - bbox.x0)
    y := bbox.y0 + ushr1 (bbox.y1 - bbox.y0) }

/-- `BboxUtils.bboxInsideOther`: whether `bboxB` is (weakly) contained in
`bboxA`. -/
def bboxInsideOther (bboxA bboxB : Bbox) : Bool :=
  decide (bboxB.x0 ≥ bboxA.x0) && decide (bboxB.x1 ≤ bboxA.x1) &&
    decide (bboxB.y0 ≥ bboxA.y0) && decide (bboxB.y1 ≤ bboxA.y1)

/-- `BboxUtils.bboxFromBarcode`: bbox from the `topLeft` and `bottomRight`
corners of a barcode's position. -/
def bboxFromBarcode (barcode : Barcode) : Bbox :=
  { x0 := barcode.position.topLeft.x, y0 := barcode.position.topLeft.y
    x1 := barcode.position.bottomRight.x, y1 := barcode.position.bottomRight.y }

/-- `BboxUtils.bboxCenterDistance`: center distance of two boxes; the 1-D
absolute difference when the centers align on an axis, Euclidean distance
otherwise. -/
noncomputable def bboxCenterDistance (bboxA bboxB : Bbox) : ℝ :=
  let a := bboxCenterPoint bboxA
  let b := bboxCenterPoint bboxB
  if a.x = b.x then |(a.y : ℝ) - (b.y : ℝ)|
  else if a.y = b.y then |(a.x : ℝ) - (b.x : ℝ)|
  else Real.sqrt (((a.x : ℝ) - (b.x : ℝ)) * ((a.x : ℝ) - (b.x : ℝ)) +
    ((a.y : ℝ) - (b.y : ℝ)) * ((a.y : ℝ) - (b.y : ℝ)))

/-- JavaScript `Math.atan2(y, x)`, with values in `(-π, π]`: the argument
of the complex number `x + y·i`. -/
noncomputable def atan2 (y x : ℝ) : ℝ :=
  Complex.arg (Complex.mk x y)

/-- The angle-quantization chain of `BboxUtils.bboxDirectionOf`, as a
function of the computed `radians` value.  The source's `if`/`else if`
chain falls through (returning `undefined`, here `none`) when no
comparison matches. -/
noncomputable def directionOfRadians (radians : ℝ) : Option CardinalDirection :=
  if radians ≥ 5.495 ∨ radians < 0.785 then some CardinalDirection.EAST
  else if radians ≥ 0.785 ∧ radians < 2.355 then some CardinalDirection.NORTH
  else if radians ≥ 2.355 ∧ radians < 3.925 then some CardinalDirection.WEST
  else if radians ≥ 3.925 ∧ radians < 5.495 then some CardinalDirection.SOUTH
  else none

/-- `BboxUtils.bboxDirectionOf`: the cardinal direction of `bboxB`
relative to `bboxA`, quantizing
`Math.atan2(centerA.y - centerB.y, centerA.x - centerB.x)`. -/
noncomputable def bboxDirectionOf (bboxA bboxB : Bbox) : Option CardinalDirection :=
  let centerA := bboxCenterPoint bboxA
  let centerB := bboxCenterPoint bboxB
  directionOfRadians
    (atan2 ((centerA.y : ℝ) - (centerB.y : ℝ)) ((centerA.x : ℝ) - (centerB.x : ℝ)))

/-- JavaScript `String.prototype.padStart(n, c)`: pad on the left with `c`
up to length `n` (no change when already at least that long). -/
def padStart (s : String) (n : Nat) (c : Char) : String :=
  String.mk (List.replicate (n - s.length) c) ++ s

/-- One byte escape token: backtick-free rendering of
`'^' + v.toString().padStart(3, '0')`. -/
def byteEscapeToken (v : Nat) : String :=
  "^" ++ padStart (Nat.repr v) 3 '0'

/-- JavaScript `Array.prototype.join('')`: concatenation of a list of
strings. -/
def joinAll : List String → String
  | [] => ""
  | s :: rest => s ++ joinAll rest

/-- The `bwipRaw` expression of the datamatrix and code128 regeneration
branches: `bytes.map((v) => ...).join('') || null`, i.e. the concatenated
escape tokens, or `none` when the result is the empty string. -/
def byteEscapeJoin (bytes : List Nat) : Option String :=
  let s := joinAll (bytes.map byteEscapeToken)
  if s = "" then none else some s

/-- The code128 branch's `slice(0, -2)` on the raw byte array: everything
except the last two bytes (checksum and stop byte). -/
def code128RawCodepoints (bytes : List Nat) : List Nat :=
  bytes.take (bytes.length - 2)

/-- The subset of bwip-js options the program constructs.  Fields absent
from a given recipe keep their default value; `commonBwipOptions`
constants (paddings, background, `includetext`, `textalign`, `scale`)
appear as literal defaults. -/
structure BwipOptions where
  bcid : String
  text : String
  alttext : Option String := none
  raw : Bool := false
  parsefnc : Bool := false
  version : Option String := none
  mask : Option String := none
  eclevel : Option String := none
  fixedeclevel : Bool := false
  paddingbottom : Nat := 2
  paddingtop : Nat := 2
  paddingleft : Nat := 2
  paddingright : Nat := 2
  backgroundcolor : String := "FFFFFF"
  includetext : Bool := false
  textalign : String := "center"
  scale : Nat := 3
deriving DecidableEq

/-- The `extraOpts` conversion in the per-barcode loop: a qrcode or
datamatrix `Version` of positive length becomes the `version` option, and
for qrcode an integral `DataMask` becomes the `mask` option through
`String(DataMask || -1)` (so a mask of `0` is rendered as `-1`). -/
def extraOptions (barcodeFormat : String) (extra : BarcodeExtra) :
    Option String × Option String :=
  let version :=
    if (barcodeFormat = "qrcode" ∨ barcodeFormat = "datamatrix") ∧
        (extra.Version.getD "").length > 0 then extra.Version else none
  let mask :=
    if barcodeFormat = "qrcode" then
      extra.DataMask.map (fun d => toString (if d = 0 then -1 else d))
    else none
  (version, mask)

/-- The qrcode regeneration recipe (`case 'qrcode'` of the switch): render
directly from the decoded text, propagating `eclevel` and the extra
options; never strict. -/
def qrcodeOptions (version mask : Option String) (b : Barcode) : BwipOptions :=
  { bcid := "qrcode", text := b.text, version := version, mask := mask
    eclevel := b.ecLevel, fixedeclevel := true }

/-- The datamatrix regeneration recipe (`case 'datamatrix'`), returning
the built options together with the resulting `strict` flag: when
`bwipRaw` is non-null and strict mode was requested, render the byte
escapes in `raw` mode with the decoded text as `alttext` (strict);
otherwise render the decoded text, with a `^PROG` reader-initialisation
prefix when `readerInit` is set. -/
def datamatrixOptions (strictReq : Bool) (version mask : Option String)
    (b : Barcode) : BwipOptions × Bool :=
  let bwipRaw := byteEscapeJoin (b.rawBytes.getD [])
  match bwipRaw, strictReq with
  | some rawText, true =>
    ({ bcid := "datamatrix", version := version, mask := mask
       alttext := some b.text, text := rawText, raw := true }, true)
  | _, _ =>
    ({ bcid := "datamatrix", version := version, mask := mask
       alttext := some b.text, parsefnc := b.readerInit
       text := if b.readerInit then "^PROG" ++ b.text else b.text }, false)

/-- The code128 regeneration recipe (`case 'code128'`): as for datamatrix
but with the last two raw bytes (checksum and stop) dropped before
escaping, no `alttext`, and a `^FNC3` reader-initialisation prefix on the
non-strict path. -/
def code128Options (strictReq : Bool) (version mask : Option String)
    (b : Barcode) : BwipOptions × Bool :=
  let bwipRaw := byteEscapeJoin (code128RawCodepoints (b.rawBytes.getD []))
  match bwipRaw, strictReq with
  | some rawText, true =>
    ({ bcid := "code128", version := version, mask := mask
       text := rawText, raw := true }, true)
  | _, _ =>
    ({ bcid := "code128", version := version, mask := mask
       parsefnc := b.readerInit
       text := if b.readerInit then "^FNC3" ++ b.text else b.text }, false)

/-- Result of the regeneration switch for one barcode: the PNG and SVG
blobs produced by the renderer (absent when regeneration was skipped),
the `strict` flag, and the `regen` flag. -/
structure RegenResult where
  png : Option (List Nat)
  svg : Option (List Nat)
  strict : Bool
  regen : Bool
deriving DecidableEq

/-- The per-format regeneration switch of the per-barcode loop
(`index.mjs`).  `toBuffer` and `toSVG` stand for `bwipjs.toBuffer` and
`bwipjs.toSVG`; a raised renderer error is an `Except.error` and
propagates — the source wraps none of these calls in a `try`.  The SVG
variant is rendered with `scale: 1`.  An unknown format throws when
strict mode was requested and otherwise skips regeneration. -/
def regenBarcode (strictReq : Bool)
    (toBuffer toSVG : BwipOptions → Except String (List Nat))
    (version mask : Option String) (barcodeFormat : String) (b : Barcode) :
    Except String RegenResult :=
  if barcodeFormat = "qrcode" then
    match toBuffer (qrcodeOptions version mask b) with
    | Except.error e => Except.error e
    | Except.ok png =>
      match toSVG { qrcodeOptions version mask b with scale := 1 } with
      | Except.error e => Except.error e
      | Except.ok svg => Except.ok ⟨some png, some svg, false, true⟩
  else if barcodeFormat = "datamatrix" then
    match toBuffer (datamatrixOptions strictReq version mask b).1 with
    | Except.error e => Except.error e
    | Except.ok png =>
      match toSVG { (datamatrixOptions strictReq version mask b).1 with scale := 1 } with
      | Except.error e => Except.error e
      | Except.ok svg =>
        Except.ok ⟨some png, some svg, (datamatrixOptions strictReq version mask b).2, true⟩
  else if barcodeFormat = "code128" then
    match toBuffer (code128Options strictReq version mask b).1 with
    | Except.error e => Except.error e
    | Except.ok png =>
      match toSVG { (code128Options strictReq version mask b).1 with scale := 1 } with
      | Except.error e => Except.error e
      | Except.ok svg =>
        Except.ok ⟨some png, some svg, (code128Options strictReq version mask b).2, true⟩
  else if strictReq then
    Except.error ("Can not regenerate unknown barcode format: " ++ barcodeFormat)
  else
    Except.ok ⟨none, none, false, false⟩

/-- The `Map` built from the rxing detections:
`reduce((res, item) => res.set(item.text, item), new Map())` — lookup by
decoded text, a later detection with the same text overwriting an earlier
one. -/
def rxingTextMap (rxingBarcodes : List RxingResult) : String → Option RxingResult :=
  rxingBarcodes.foldl
    (fun res item => fun t => if t = item.text then some item else res t)
    (fun _ => none)

/-- The augmentation pass
`pageBarcodes.forEach((item) => item.rawBytes = rxingBarcodes?.get(item.text)?.bytes)`. -/
def augmentBarcodes (rxingBarcodes : String → Option RxingResult)
    (pageBarcodes : List Barcode) : List Barcode :=
  pageBarcodes.map
    (fun item => { item with rawBytes := (rxingBarcodes item.text).map RxingResult.bytes })

/-- The strict-mode block of the per-page loop (`if (argv.strict) {...}`):
when strict mode is requested the page is run through the secondary
(rxing) decoder and every zxing barcode is augmented with the raw bytes of
the rxing detection sharing its decoded text; otherwise the barcodes pass
through untouched.  The second component records whether the secondary
decoder was invoked for this page. -/
def strictAugment (strictReq : Bool) (rxingResults : List RxingResult)
    (pageBarcodes : List Barcode) : List Barcode × Bool :=
  if strictReq then (augmentBarcodes (rxingTextMap rxingResults) pageBarcodes, true)
  else (pageBarcodes, false)

/-- The per-line body of the label-detection loop, given the precomputed
`minDistance` and `maxDistance`: skip the line when its center distance is
`≥ maxDistance`, `≤ minDistance`, or its bbox lies inside the barcode's
bbox; otherwise record it with a 10% distance debuff when it is NORTH of
the barcode. -/
noncomputable def labelCandidateOf (barcodeBbox : Bbox) (minDistance : Int)
    (maxDistance : ℝ) (line : TextLine) : Option (TextLine × ℝ) :=
  let distance := bboxCenterDistance barcodeBbox line.bbox
  if distance ≥ maxDistance ∨ distance ≤ (minDistance : ℝ) ∨
      bboxInsideOther barcodeBbox line.bbox = true then none
  else
    some (line,
      if bboxDirectionOf barcodeBbox line.bbox = some CardinalDirection.NORTH then
        distance + distance * 0.1
      else distance)

/-- The candidate list of the label-detection closure:
`minDistance` is half the smaller bbox side, `maxDistance` a quarter of
the larger page dimension. -/
noncomputable def labelCandidates (barcodeBbox : Bbox)
    (pageWidth pageHeight : Nat) (textLines : List TextLine) :
    List (TextLine × ℝ) :=
  let minDistance := min (ushr1 (barcodeBbox.x1 - barcodeBbox.x0))
    (ushr1 (barcodeBbox.y1 - barcodeBbox.y0))
  let maxDistance : ℝ := ((max pageWidth pageHeight : Nat) : ℝ) * 0.25
  textLines.filterMap (labelCandidateOf barcodeBbox minDistance maxDistance)

/-- `candidates.sort((a, b) => a.distance - b.distance).at(0)`: the
candidate with the smallest (penalized) distance, ties broken by original
enumeration order (JavaScript's sort is stable, as is `mergeSort`). -/
noncomputable def labelSelected (barcodeBbox : Bbox)
    (pageWidth pageHeight : Nat) (textLines : List TextLine) :
    Option (TextLine × ℝ) :=
  ((labelCandidates barcodeBbox pageWidth pageHeight textLines).mergeSort
    (fun a b => decide (a.2 ≤ b.2))).head?

/-- The label-detection closure's result: `selected?.text?.trim()`. -/
noncomputable def labelDetect (barcodeBbox : Bbox)
    (pageWidth pageHeight : Nat) (textLines : List TextLine) : Option String :=
  (labelSelected barcodeBbox pageWidth pageHeight textLines).map
    (fun selected => selected.1.text.trim)

/-- One entry of `extractedPageBarcodes` as serialized into a page result:
decoded text, associated label, normalized format, strict flag, rendered
blobs and pixel bbox.  (The source-image crop, a canvas operation, is not
modelled.) -/
structure ExtractedBarcode where
  text : String
  label : Option String
  format : String
  strict : Bool
  png : Option (List Nat)
  svg : Option (List Nat)
  bbox : Bbox
deriving DecidableEq

/-- The body of the per-barcode loop (`for (const [idx, barcode] of
pageBarcodes.entries())`): an invalid barcode is skipped (`.ok none`), any
exception of the regeneration switch propagates, and otherwise the
extracted record — with the label chosen by the label-detection closure —
is produced. -/
noncomputable def processBarcode (strictReq : Bool)
    (toBuffer toSVG : BwipOptions → Except String (List Nat))
    (pageWidth pageHeight : Nat) (textLines : List TextLine) (b : Barcode) :
    Except String (Option ExtractedBarcode) :=
  let barcodeFormat := zxingToBwip b.format
  if b.isValid = false then Except.ok none
  else
    match regenBarcode strictReq toBuffer toSVG
        (extraOptions barcodeFormat b.extra).1 (extraOptions barcodeFormat b.extra).2
        barcodeFormat b with
    | Except.error e => Except.error e
    | Except.ok r =>
      Except.ok (some
        { text := b.text
          label := labelDetect (bboxFromBarcode b) pageWidth pageHeight textLines
          format := barcodeFormat, strict := r.strict
          png := r.png, svg := r.svg, bbox := bboxFromBarcode b })

/-- The `extractedPageBarcodes` accumulation across the per-barcode loop:
records are appended in order, skipped barcodes contribute nothing, and a
thrown error aborts the whole loop. -/
noncomputable def extractPageBarcodes (strictReq : Bool)
    (toBuffer toSVG : BwipOptions → Except String (List Nat))
    (pageWidth pageHeight : Nat) (textLines : List TextLine) :
    List Barcode → Except String (List ExtractedBarcode)
  | [] => Except.ok []
  | b :: rest =>
    match processBarcode strictReq toBuffer toSVG pageWidth pageHeight textLines b with
    | Except.error e => Except.error e
    | Except.ok none =>
      extractPageBarcodes strictReq toBuffer toSVG pageWidth pageHeight textLines rest
    | Except.ok (some r) =>
      match extractPageBarcodes strictReq toBuffer toSVG pageWidth pageHeight textLines rest with
      | Except.error e => Except.error e
      | Except.ok others => Except.ok (r :: others)

/-- A `page:<id>` entry of the final output: page text, serialized
barcodes and the page's text lines. -/
structure PageEntry where
  text : String
  barcodes : List ExtractedBarcode
  textLines : List TextLine
deriving DecidableEq

/-- One iteration of the per-page loop after rasterization and detection:
when zxing found no barcodes the page is skipped and contributes no
`page:<id>` entry (`.ok none`); otherwise the barcode loop runs — any
exception aborting the page — and the page entry is recorded
unconditionally, whether or not any barcode survived the validity
filter. -/
noncomputable def processPage (strictReq : Bool)
    (toBuffer toSVG : BwipOptions → Except String (List Nat))
    (pageWidth pageHeight : Nat) (pageText : String)
    (textLines : List TextLine) (pageBarcodes : List Barcode) :
    Except String (Option PageEntry) :=
  if pageBarcodes.length ≤ 0 then Except.ok none
  else
    match extractPageBarcodes strictReq toBuffer toSVG pageWidth pageHeight
        textLines pageBarcodes with
    | Except.error e => Except.error e
    | Except.ok extracted =>
      Except.ok (some { text := pageText, barcodes := extracted, textLines := textLines })

/-- C10: for all integers `a` and `b`, `seq(a, b)` is the ascending
inclusive sequence from `min(a, b)` to `max(a, b)` (length
`max − min + 1`), so `seq` is symmetric in its arguments; in particular a
reversed page range such as `3-1` in the exclusion list denotes the same
page set as `1-3`. -/
theorem seq_ascending_symmetric (a b : Int) :
    seq a b = seq b a ∧
    (seq a b).length = ((max a b) - (min a b) + 1).toNat ∧
    (∀ x : Int, x ∈ seq a b ↔ min a b ≤ x ∧ x ≤ max a b) ∧
    (seq a b).Pairwise (· < ·) := by
  refine ⟨?_, ?_, ?_, ?_⟩
  · rw [seq, seq, min_comm, max_comm]
  · rw [seq, List.length_map, List.length_range]
  · intro x
    rw [seq, List.mem_map]
    constructor
    · rintro ⟨k, hk, rfl⟩
      rw [List.mem_range] at hk
      have hmm : min a b ≤ max a b := min_le_max
      omega
    · rintro ⟨h1, h2⟩
      refine ⟨(x - min a b).toNat, ?_, ?_⟩
      · rw [List.mem_range]
        omega
      · omega
  · rw [seq]
    refine List.Pairwise.map _ ?_
      (List.pairwise_lt_range (((max a b) - (min a b) + 1).toNat))
    intro i j hij
    omega

/-- C6 counterexample: the round trip through `ptsToPixel` and
`pixelToPts` shrinks the box `(0,0)-(400,400)` to `(0,0)-(399,399)`: the
extent strictly decreases, and no floor/ceil is applied anywhere. -/
theorem roundTrip_shrinks_concrete :
    bboxPixelToPts (bboxPtsToPixel ⟨0, 0, 400, 400⟩) = ⟨0, 0, 399, 399⟩ ∧
    (399 : ℚ) - 0 < (400 : ℚ) - 0 := by
  constructor
  · simp only [bboxPixelToPts, bboxPtsToPixel, ptsToPixel, pixelToPts]
    norm_num
  · norm_num

/-- C6 (amended): the layout→pixel→layout round trip multiplies every
coordinate by `0.75 * 1.33 = 399/400 = 0.9975`; extents are therefore
scaled by `0.9975` as well, so the round trip never enlarges a box and
strictly shrinks any box of positive extent (no floor/ceil is applied —
the converters are plain scalar multiplications). -/
theorem roundTrip_scales_coords (b : QBbox) :
    bboxPixelToPts (bboxPtsToPixel b) =
      ⟨399/400 * b.x0, 399/400 * b.y0, 399/400 * b.x1, 399/400 * b.y1⟩ := by
  simp only [bboxPixelToPts, bboxPtsToPixel, ptsToPixel, pixelToPts, QBbox.mk.injEq]
  refine ⟨?_, ?_, ?_, ?_⟩ <;>
    · norm_num
      ring

/-- The concrete barcode of the C3 scenario: a valid code128 whose raw
bytes are `[0x41, 0x42, 0x1D, 0x6A]` (payload `A`, `B`, then checksum and
stop byte). -/
def c3Barcode : Barcode :=
  { format := "Code128", text := "AB", isValid := true
    position := ⟨⟨0, 0⟩, ⟨0, 0⟩, ⟨0, 0⟩, ⟨0, 0⟩⟩
    rawBytes := some [0x41, 0x42, 0x1D, 0x6A] }

/-- C3: regenerating a code128 in strict mode with raw bytes
`[0x41, 0x42, 0x1D, 0x6A]` builds renderer options whose text is the
escape string `^065^066` in raw mode (the strict path is taken): the last
two bytes are dropped and each remaining byte becomes a caret escape
zero-padded to three decimal digits, concatenated without separator. -/
theorem code128_strict_escape_concrete :
    (code128Options true none none c3Barcode).1.text = "^065^066" ∧
    (code128Options true none none c3Barcode).1.raw = true ∧
    (code128Options true none none c3Barcode).2 = true := by
  refine ⟨rfl, rfl, rfl⟩

/-- The sector assignment exactly as the claim words it, for comparison
with the implemented quantizer: boundaries at `0.785`, `2.355`, `3.925`,
`5.495` radians, each sector exclusive on its lower bound and inclusive on
its upper, with EAST wrapping across `0`. -/
noncomputable def claimedDirectionOfRadians (radians : ℝ) : Option CardinalDirection :=
  if 0.785 < radians ∧ radians ≤ 2.355 then some CardinalDirection.NORTH
  else if 2.355 < radians ∧ radians ≤ 3.925 then some CardinalDirection.WEST
  else if 3.925 < radians ∧ radians ≤ 5.495 then some CardinalDirection.SOUTH
  else some CardinalDirection.EAST

/-- C2 counterexample: at the boundary angle `2.355` the implemented
quantizer returns WEST (its comparisons are `>=` lower / `<` upper, i.e.
inclusive on the lower bound and exclusive on the upper), while the
claimed exclusive-lower/inclusive-upper boundaries would put `2.355` in
the NORTH sector. -/
theorem directionOfRadians_boundary_counterexample :
    directionOfRadians (2.355 : ℝ) = some CardinalDirection.WEST ∧
    claimedDirectionOfRadians (2.355 : ℝ) = some CardinalDirection.NORTH ∧
    CardinalDirection.WEST ≠ CardinalDirection.NORTH := by
  refine ⟨?_, ?_, by decide⟩
  · rw [directionOfRadians, if_neg (by norm_num), if_neg (by norm_num),
      if_pos (by norm_num)]
  · rw [claimedDirectionOfRadians, if_pos (by norm_num)]

/-- C2 (amended): for every angle the quantizer can receive it returns
exactly one of NORTH, SOUTH, EAST, WEST, with sector boundaries at
`0.785`, `2.355`, `3.925`, `5.495` radians that are *inclusive on the
lower bound and exclusive on the upper*, and EAST wrapping across `0`. -/
theorem directionOfRadians_sectors (r : ℝ) :
    (directionOfRadians r = some CardinalDirection.EAST ↔ (r < 0.785 ∨ 5.495 ≤ r)) ∧
    (directionOfRadians r = some CardinalDirection.NORTH ↔ (0.785 ≤ r ∧ r < 2.355)) ∧
    (directionOfRadians r = some CardinalDirection.WEST ↔ (2.355 ≤ r ∧ r < 3.925)) ∧
    (directionOfRadians r = some CardinalDirection.SOUTH ↔ (3.925 ≤ r ∧ r < 5.495)) ∧
    (directionOfRadians r).isSome = true := by
  rcases lt_or_le r 0.785 with hA | hA
  · have hd : directionOfRadians r = some CardinalDirection.EAST := by
      rw [directionOfRadians, if_pos (Or.inr hA)]
    rw [hd]
    refine ⟨iff_of_true rfl (Or.inl hA), ?_, ?_, ?_, rfl⟩
    · exact iff_of_false (by simp) (by rintro ⟨h1, -⟩; linarith)
    · exact iff_of_false (by simp) (by rintro ⟨h1, -⟩; linarith)
    · exact iff_of_false (by simp) (by rintro ⟨h1, -⟩; linarith)
  rcases lt_or_le r 2.355 with hB | hB
  · have hd : directionOfRadians r = some CardinalDirection.NORTH := by
      rw [directionOfRadians, if_neg (by push_neg; exact ⟨by linarith, hA⟩),
        if_pos ⟨hA, hB⟩]
    rw [hd]
    refine ⟨?_, iff_of_true rfl ⟨hA, hB⟩, ?_, ?_, rfl⟩
    · exact iff_of_false (by simp) (by rintro (h1 | h1) <;> linarith)
    · exact iff_of_false (by simp) (by rintro ⟨h1, -⟩; linarith)
    · exact iff_of_false (by simp) (by rintro ⟨h1, -⟩; linarith)
  rcases lt_or_le r 3.925 with hC | hC
  · have hd : directionOfRadians r = some CardinalDirection.WEST := by
      rw [directionOfRadians, if_neg (by push_neg; exact ⟨by linarith, by linarith⟩),
        if_neg (by rintro ⟨-, h2⟩; linarith), if_pos ⟨hB, hC⟩]
    rw [hd]
    refine ⟨?_, ?_, iff_of_true rfl ⟨hB, hC⟩, ?_, rfl⟩
    · exact iff_of_false (by simp) (by rintro (h1 | h1) <;> linarith)
    · exact iff_of_false (by simp) (by rintro ⟨-, h2⟩; linarith)
    · exact iff_of_false (by simp) (by rintro ⟨h1, -⟩; linarith)
  rcases lt_or_le r 5.495 with hD | hD
  · have hd : directionOfRadians r = some CardinalDirection.SOUTH := by
      rw [directionOfRadians, if_neg (by push_neg; exact ⟨by linarith, by linarith⟩),
        if_neg (by rintro ⟨-, h2⟩; linarith), if_neg (by rintro ⟨-, h2⟩; linarith),
        if_pos ⟨hC, hD⟩]
    rw [hd]
    refine ⟨?_, ?_, ?_, iff_of_true rfl ⟨hC, hD⟩, rfl⟩
    · exact iff_of_false (by simp) (by rintro (h1 | h1) <;> linarith)
    · exact iff_of_false (by simp) (by rintro ⟨-, h2⟩; linarith)
    · exact iff_of_false (by simp) (by rintro ⟨-, h2⟩; linarith)
  · have hd : directionOfRadians r = some CardinalDirection.EAST := by
      rw [directionOfRadians, if_pos (Or.inl hD)]
    rw [hd]
    refine ⟨iff_of_true rfl (Or.inr hD), ?_, ?_, ?_, rfl⟩
    · exact iff_of_false (by simp) (by rintro ⟨-, h2⟩; linarith)
    · exact iff_of_false (by simp) (by rintro ⟨-, h2⟩; linarith)
    · exact iff_of_false (by simp) (by rintro ⟨-, h2⟩; linarith)

/-- A degenerate position record used by the concrete scenarios. -/
def zeroPosition : Position :=
  ⟨⟨0, 0⟩, ⟨0, 0⟩, ⟨0, 0⟩, ⟨0, 0⟩⟩

/-- A secondary-decoder detection used by the C8 scenario: a qrcode with
decoded text `X` and raw bytes `[1, 2, 3]`. -/
def c8RxingResult : RxingResult :=
  { format := some "qrcode", text := "X", bytes := [1, 2, 3], position := zeroPosition }

/-- A primary-decoder candidate of the C8 scenario: a valid qrcode with
the same decoded text `X` and no raw bytes yet. -/
def c8Barcode : Barcode :=
  { format := "QRCode", text := "X", isValid := true, position := zeroPosition }

/-- C8 counterexample: in strict mode a *qrcode* candidate — a format
outside the eligible set `{code128, datamatrix}` — receives the raw bytes
of the text-matching secondary detection: the augmentation step checks
only the decoded text, never the format. -/
theorem strictAugment_qrcode_gets_rawBytes :
    (strictAugment true [c8RxingResult] [c8Barcode]).1 =
      [{ c8Barcode with rawBytes := some [1, 2, 3] }] ∧
    zxingToBwip c8Barcode.format = "qrcode" ∧
    zxingToBwip c8Barcode.format ≠ "code128" ∧
    zxingToBwip c8Barcode.format ≠ "datamatrix" := by
  refine ⟨?_, ?_, by decide, by decide⟩ <;> rfl

/-- C8 (amended): the secondary decoder is invoked for a page exactly when
strict mode is requested — independent of any candidate's format — and it
is invoked once on the whole page; every candidate, of any format,
receives as `rawBytes` the bytes of the secondary detection whose decoded
text equals its own (or nothing when no text matches); with strict mode
off candidates pass through unchanged. -/
theorem strictAugment_spec (rxingResults : List RxingResult)
    (pageBarcodes : List Barcode) (b : Barcode) (hb : b ∈ pageBarcodes) :
    (strictAugment true rxingResults pageBarcodes).2 = true ∧
    (strictAugment false rxingResults pageBarcodes).2 = false ∧
    { b with rawBytes := (rxingTextMap rxingResults b.text).map RxingResult.bytes } ∈
      (strictAugment true rxingResults pageBarcodes).1 ∧
    (strictAugment false rxingResults pageBarcodes).1 = pageBarcodes := by
  refine ⟨rfl, rfl, ?_, rfl⟩
  simp only [strictAugment, if_pos, augmentBarcodes]
  exact List.mem_map_of_mem _ hb

/-- Witness for the amended C8 theorem at the concrete C8 scenario. -/
theorem strictAugment_spec_witness :
    c8Barcode ∈ [c8Barcode] ∧
    ((strictAugment true [c8RxingResult] [c8Barcode]).2 = true ∧
     (strictAugment false [c8RxingResult] [c8Barcode]).2 = false ∧
     { c8Barcode with
        rawBytes := (rxingTextMap [c8RxingResult] c8Barcode.text).map RxingResult.bytes } ∈
       (strictAugment true [c8RxingResult] [c8Barcode]).1 ∧
     (strictAugment false [c8RxingResult] [c8Barcode]).1 = [c8Barcode]) :=
  ⟨List.mem_singleton.mpr rfl,
    strictAugment_spec [c8RxingResult] [c8Barcode] c8Barcode (List.mem_singleton.mpr rfl)⟩

/-- A renderer stub that always succeeds with an empty blob. -/
def okRender : BwipOptions → Except String (List Nat) :=
  fun _ => Except.ok []

/-- A renderer stub that always raises, standing for a failing
`bwipjs.toBuffer` call. -/
def failRender : BwipOptions → Except String (List Nat) :=
  fun _ => Except.error "boom"

/-- The C7 scenario: a page whose only detection is an *invalid* qrcode
candidate. -/
def c7InvalidBarcode : Barcode :=
  { format := "QRCode", text := "Y", isValid := false, position := zeroPosition }

/-- The page entry the C7 scenario produces: empty barcode list. -/
def c7PageEntry : PageEntry :=
  { text := "", barcodes := [], textLines := [] }

/-- Evaluation of the C7 scenario: the page with one invalid detection
still produces a page entry, whose barcode list is empty. -/
theorem processPage_allInvalid_eval :
    processPage false okRender okRender 100 100 "" [] [c7InvalidBarcode] =
      Except.ok (some c7PageEntry) := rfl

/-- C7 counterexample: a page whose detections are all invalid *does*
contribute a `page:<id>` entry (with an empty barcode list) — the entry is
only skipped when the primary decoder returned no detections at all, not
when none of them is valid. -/
theorem processPage_allInvalid_entry :
    c7InvalidBarcode.isValid = false ∧
    processPage false okRender okRender 100 100 "" [] [c7InvalidBarcode] =
      Except.ok (some c7PageEntry) ∧
    c7PageEntry.barcodes = [] :=
  ⟨rfl, processPage_allInvalid_eval, rfl⟩

/-- C7 (amended): when page processing succeeds, the final output contains
a `page:<id>` entry if and only if the primary decoder returned at least
one detection (valid or not); only a page with zero raw detections
contributes no page entry.  (A page whose detections are all invalid
contributes an entry with an empty barcode list.) -/
theorem processPage_entry_iff_detections (strictReq : Bool)
    (toBuffer toSVG : BwipOptions → Except String (List Nat))
    (pageWidth pageHeight : Nat) (pageText : String) (textLines : List TextLine)
    (pageBarcodes : List Barcode) (result : Option PageEntry)
    (h : processPage strictReq toBuffer toSVG pageWidth pageHeight pageText
      textLines pageBarcodes = Except.ok result) :
    result = none ↔ pageBarcodes = [] := by
  rw [processPage] at h
  by_cases hb : pageBarcodes.length ≤ 0
  · rw [if_pos hb] at h
    injection h with h'
    have hpb : pageBarcodes = [] := List.length_eq_zero.mp (by omega)
    rw [← h', hpb]
    exact iff_of_true rfl rfl
  · rw [if_neg hb] at h
    have hne : pageBarcodes ≠ [] := by
      intro he
      apply hb
      rw [he]
      exact Nat.le_refl 0
    cases hex : extractPageBarcodes strictReq toBuffer toSVG pageWidth pageHeight
        textLines pageBarcodes with
    | error err => rw [hex] at h; simp at h
    | ok extracted =>
      rw [hex] at h
      injection h with h'
      rw [← h']
      simp [hne]

/-- Witness for the amended C7 theorem at the all-invalid-detections
scenario. -/
theorem processPage_entry_iff_detections_witness :
    processPage false okRender okRender 100 100 "" [] [c7InvalidBarcode] =
      Except.ok (some c7PageEntry) ∧
    ((some c7PageEntry = (none : Option PageEntry)) ↔ [c7InvalidBarcode] = ([] : List Barcode)) :=
  ⟨processPage_allInvalid_eval,
    processPage_entry_iff_detections false okRender okRender 100 100 "" []
      [c7InvalidBarcode] (some c7PageEntry) processPage_allInvalid_eval⟩

/-- The C9 scenario: a valid qrcode candidate whose regeneration will hit
the failing renderer. -/
def c9Barcode : Barcode :=
  { format := "QRCode", text := "Z", isValid := true, position := zeroPosition }

/-- C9 counterexample: a renderer failure while regenerating a barcode is
*not* caught per-barcode — the error propagates out of the per-barcode
loop and processing of the containing page aborts with that error (no
page entry, no degraded barcode record).  In the source the only handler
is the top-level `try`/`catch` around the whole file loop. -/
theorem processPage_renderFailure_aborts :
    processPage false failRender okRender 100 100 "" [] [c9Barcode] =
      Except.error "boom" := rfl

/-- C9 (amended): a failure raised by the external renderer during
regeneration of a valid barcode of a renderable format aborts processing
of the containing page: the per-page computation evaluates to that very
error (which the document loop then surfaces), instead of a degraded
per-barcode result. -/
theorem processPage_renderFailure_propagates (strictReq : Bool)
    (toSVG : BwipOptions → Except String (List Nat))
    (pageWidth pageHeight : Nat) (pageText : String) (textLines : List TextLine)
    (b : Barcode) (rest : List Barcode) (e : String)
    (toBuffer : BwipOptions → Except String (List Nat))
    (hvalid : b.isValid = true)
    (hfmt : zxingToBwip b.format = "qrcode" ∨ zxingToBwip b.format = "datamatrix" ∨
      zxingToBwip b.format = "code128")
    (hfail : toBuffer = fun _ => Except.error e) :
    processPage strictReq toBuffer toSVG pageWidth pageHeight pageText textLines
      (b :: rest) = Except.error e := by
  subst hfail
  have hregen : regenBarcode strictReq (fun _ => Except.error e) toSVG
      (extraOptions (zxingToBwip b.format) b.extra).1
      (extraOptions (zxingToBwip b.format) b.extra).2
      (zxingToBwip b.format) b = Except.error e := by
    rcases hfmt with h | h | h
    · rw [regenBarcode, if_pos h]
    · rw [regenBarcode, if_neg (by rw [h]; decide), if_pos h]
    · rw [regenBarcode, if_neg (by rw [h]; decide), if_neg (by rw [h]; decide),
        if_pos h]
  have hpb : processBarcode strictReq (fun _ => Except.error e) toSVG pageWidth
      pageHeight textLines b = Except.error e := by
    simp only [processBarcode]
    rw [if_neg (by rw [hvalid]; decide), hregen]
  rw [processPage, if_neg (by simp), extractPageBarcodes, hpb]

/-- Witness for the amended C9 theorem at the concrete failing-renderer
scenario. -/
theorem processPage_renderFailure_propagates_witness :
    c9Barcode.isValid = true ∧
    zxingToBwip c9Barcode.format = "qrcode" ∧
    failRender = (fun _ => Except.error "boom") ∧
    processPage false failRender okRender 100 100 "" [] (c9Barcode :: []) =
      Except.error "boom" :=
  ⟨rfl, rfl, rfl,
    processPage_renderFailure_propagates false okRender 100 100 "" [] c9Barcode []
      "boom" failRender rfl (Or.inl rfl) rfl⟩

/-- The byte-escape join is non-null exactly on a non-empty byte list. -/
theorem byteEscapeJoin_some_ne_nil (bytes : List Nat) (s : String)
    (h : byteEscapeJoin bytes = some s) : bytes ≠ [] := by
  intro hc
  subst hc
  simp [byteEscapeJoin, joinAll] at h

/-- When the datamatrix recipe reports `strict`, a non-empty raw byte
sequence was available. -/
theorem datamatrixOptions_strict_rawBytes (strictReq : Bool)
    (version mask : Option String) (b : Barcode)
    (h : (datamatrixOptions strictReq version mask b).2 = true) :
    b.rawBytes.getD [] ≠ [] := by
  cases hj : byteEscapeJoin (b.rawBytes.getD []) with
  | none =>
    cases strictReq <;> simp [datamatrixOptions, hj] at h
  | some s => exact byteEscapeJoin_some_ne_nil _ _ hj

/-- When the code128 recipe reports `strict`, the raw byte sequence minus
its last two bytes was non-empty. -/
theorem code128Options_strict_rawBytes (strictReq : Bool)
    (version mask : Option String) (b : Barcode)
    (h : (code128Options strictReq version mask b).2 = true) :
    code128RawCodepoints (b.rawBytes.getD []) ≠ [] := by
  cases hj : byteEscapeJoin (code128RawCodepoints (b.rawBytes.getD [])) with
  | none =>
    cases strictReq <;> simp [code128Options, hj] at h
  | some s => exact byteEscapeJoin_some_ne_nil _ _ hj

/-- A successful regeneration with `strict = true` happens only in the
code128 or datamatrix branch, and only with the respective non-empty raw
byte material. -/
theorem regenBarcode_strict_true (strictReq : Bool)
    (toBuffer toSVG : BwipOptions → Except String (List Nat))
    (version mask : Option String) (fmt : String) (b : Barcode) (r : RegenResult)
    (h : regenBarcode strictReq toBuffer toSVG version mask fmt b = Except.ok r)
    (hs : r.strict = true) :
    (fmt = "code128" ∧ code128RawCodepoints (b.rawBytes.getD []) ≠ []) ∨
    (fmt = "datamatrix" ∧ b.rawBytes.getD [] ≠ []) := by
  rw [regenBarcode] at h
  by_cases h1 : fmt = "qrcode"
  · rw [if_pos h1] at h
    cases htb : toBuffer (qrcodeOptions version mask b) with
    | error e => rw [htb] at h; exact Except.noConfusion h
    | ok png =>
      rw [htb] at h
      cases hts : toSVG { qrcodeOptions version mask b with scale := 1 } with
      | error e => rw [hts] at h; exact Except.noConfusion h
      | ok svg =>
        rw [hts] at h
        injection h with h'
        rw [← h'] at hs
        exact Bool.noConfusion hs
  rw [if_neg h1] at h
  by_cases h2 : fmt = "datamatrix"
  · rw [if_pos h2] at h
    cases htb : toBuffer (datamatrixOptions strictReq version mask b).1 with
    | error e => rw [htb] at h; exact Except.noConfusion h
    | ok png =>
      rw [htb] at h
      cases hts : toSVG { (datamatrixOptions strictReq version mask b).1 with scale := 1 } with
      | error e => rw [hts] at h; exact Except.noConfusion h
      | ok svg =>
        rw [hts] at h
        injection h with h'
        rw [← h'] at hs
        exact Or.inr ⟨h2, datamatrixOptions_strict_rawBytes _ _ _ _ hs⟩
  rw [if_neg h2] at h
  by_cases h3 : fmt = "code128"
  · rw [if_pos h3] at h
    cases htb : toBuffer (code128Options strictReq version mask b).1 with
    | error e => rw [htb] at h; exact Except.noConfusion h
    | ok png =>
      rw [htb] at h
      cases hts : toSVG { (code128Options strictReq version mask b).1 with scale := 1 } with
      | error e => rw [hts] at h; exact Except.noConfusion h
      | ok svg =>
        rw [hts] at h
        injection h with h'
        rw [← h'] at hs
        exact Or.inl ⟨h3, code128Options_strict_rawBytes _ _ _ _ hs⟩
  rw [if_neg h3] at h
  by_cases h4 : strictReq
  · rw [if_pos h4] at h
    exact Except.noConfusion h
  · rw [if_neg h4] at h
    injection h with h'
    rw [← h'] at hs
    exact Bool.noConfusion hs

/-- A successfully extracted record comes from a valid barcode whose
regeneration succeeded; its `format` and `strict` fields are the
normalised format and the regeneration's strict flag. -/
theorem processBarcode_ok_some (strictReq : Bool)
    (toBuffer toSVG : BwipOptions → Except String (List Nat))
    (pageWidth pageHeight : Nat) (textLines : List TextLine) (b : Barcode)
    (res : ExtractedBarcode)
    (h : processBarcode strictReq toBuffer toSVG pageWidth pageHeight textLines b =
      Except.ok (some res)) :
    res.format = zxingToBwip b.format ∧
    ∃ r : RegenResult,
      regenBarcode strictReq toBuffer toSVG
        (extraOptions (zxingToBwip b.format) b.extra).1
        (extraOptions (zxingToBwip b.format) b.extra).2
        (zxingToBwip b.format) b = Except.ok r ∧
      res.strict = r.strict := by
  simp only [processBarcode] at h
  by_cases hv : b.isValid = false
  · rw [if_pos hv] at h
    injection h with h'
    exact Option.noConfusion h'
  · rw [if_neg hv] at h
    cases hr : regenBarcode strictReq toBuffer toSVG
        (extraOptions (zxingToBwip b.format) b.extra).1
        (extraOptions (zxingToBwip b.format) b.extra).2
        (zxingToBwip b.format) b with
    | error e => rw [hr] at h; exact Except.noConfusion h
    | ok r =>
      rw [hr] at h
      injection h with h'
      injection h' with h''
      exact ⟨by rw [← h''], r, rfl, by rw [← h'']⟩

/-- Every record in a successfully extracted page list comes from
`processBarcode` on some barcode of the page. -/
theorem extractPageBarcodes_mem (strictReq : Bool)
    (toBuffer toSVG : BwipOptions → Except String (List Nat))
    (pageWidth pageHeight : Nat) (textLines : List TextLine)
    (res : ExtractedBarcode) :
    ∀ (bs : List Barcode) (l : List ExtractedBarcode),
      extractPageBarcodes strictReq toBuffer toSVG pageWidth pageHeight textLines bs =
        Except.ok l →
      res ∈ l →
      ∃ b ∈ bs, processBarcode strictReq toBuffer toSVG pageWidth pageHeight textLines b =
        Except.ok (some res) := by
  intro bs
  induction bs with
  | nil =>
    intro l h hres
    rw [extractPageBarcodes] at h
    injection h with h'
    rw [← h'] at hres
    exact absurd hres (List.not_mem_nil res)
  | cons b rest ih =>
    intro l h hres
    rw [extractPageBarcodes] at h
    cases hpb : processBarcode strictReq toBuffer toSVG pageWidth pageHeight textLines b with
    | error e => rw [hpb] at h; exact Except.noConfusion h
    | ok o =>
      rw [hpb] at h
      cases o with
      | none =>
        obtain ⟨b', hb', hp⟩ := ih l h hres
        exact ⟨b', List.mem_cons_of_mem _ hb', hp⟩
      | some r =>
        cases hrest : extractPageBarcodes strictReq toBuffer toSVG pageWidth pageHeight
            textLines rest with
        | error e => rw [hrest] at h; exact Except.noConfusion h
        | ok others =>
          rw [hrest] at h
          injection h with h'
          rw [← h'] at hres
          rcases List.mem_cons.mp hres with hEq | hmem
          · subst hEq
            exact ⟨b, List.mem_cons_self b rest, hpb⟩
          · obtain ⟨b', hb', hp⟩ := ih others hrest hmem
            exact ⟨b', List.mem_cons_of_mem _ hb', hp⟩

/-- C1: for every `BarcodeDetection` in the final output, if its `strict`
flag is true then its format is `code128` or `datamatrix` and a non-empty
`rawBytes` sequence was available on the originating candidate when the
regeneration recipe was built (for `code128`, non-empty after dropping the
last two bytes). -/
theorem strict_implies_eligible_rawBytes (strictReq : Bool)
    (toBuffer toSVG : BwipOptions → Except String (List Nat))
    (pageWidth pageHeight : Nat) (pageText : String) (textLines : List TextLine)
    (pageBarcodes : List Barcode) (pe : PageEntry) (res : ExtractedBarcode)
    (h : processPage strictReq toBuffer toSVG pageWidth pageHeight pageText textLines
      pageBarcodes = Except.ok (some pe))
    (hres : res ∈ pe.barcodes) (hs : res.strict = true) :
    ∃ b ∈ pageBarcodes,
      (res.format = "code128" ∧ code128RawCodepoints (b.rawBytes.getD []) ≠ []) ∨
      (res.format = "datamatrix" ∧ b.rawBytes.getD [] ≠ []) := by
  rw [processPage] at h
  by_cases hb : pageBarcodes.length ≤ 0
  · rw [if_pos hb] at h
    injection h with h'
    exact Option.noConfusion h'
  · rw [if_neg hb] at h
    cases hex : extractPageBarcodes strictReq toBuffer toSVG pageWidth pageHeight
        textLines pageBarcodes with
    | error e => rw [hex] at h; exact Except.noConfusion h
    | ok extracted =>
      rw [hex] at h
      injection h with h'
      injection h' with h''
      rw [← h''] at hres
      obtain ⟨b, hbmem, hpb⟩ := extractPageBarcodes_mem strictReq toBuffer toSVG
        pageWidth pageHeight textLines res pageBarcodes extracted hex hres
      obtain ⟨hfmt, r, hr, hstrict⟩ := processBarcode_ok_some strictReq toBuffer toSVG
        pageWidth pageHeight textLines b res hpb
      rw [hstrict] at hs
      have hor := regenBarcode_strict_true strictReq toBuffer toSVG
        (extraOptions (zxingToBwip b.format) b.extra).1
        (extraOptions (zxingToBwip b.format) b.extra).2
        (zxingToBwip b.format) b r hr hs
      rw [hfmt]
      exact ⟨b, hbmem, hor⟩

/-- The C1 scenario: a valid datamatrix candidate carrying raw bytes
`[1]`, processed in strict mode. -/
def c1Barcode : Barcode :=
  { format := "DataMatrix", text := "D", isValid := true, position := zeroPosition
    rawBytes := some [1] }

/-- The record the C1 scenario extracts: strict datamatrix regeneration. -/
def c1Extracted : ExtractedBarcode :=
  { text := "D", label := none, format := "datamatrix", strict := true
    png := some [], svg := some [], bbox := ⟨0, 0, 0, 0⟩ }

/-- The page entry the C1 scenario produces. -/
def c1PageEntry : PageEntry :=
  { text := "", barcodes := [c1Extracted], textLines := [] }

/-- Evaluation of the C1 scenario through the page pipeline. -/
theorem processPage_c1_eval :
    processPage true okRender okRender 100 100 "" [] [c1Barcode] =
      Except.ok (some c1PageEntry) := by
  have hlab : labelDetect (bboxFromBarcode c1Barcode) 100 100 [] = none := by
    simp [labelDetect, labelSelected, labelCandidates, List.mergeSort_nil]
  have hregen : regenBarcode true okRender okRender
      (extraOptions (zxingToBwip c1Barcode.format) c1Barcode.extra).1
      (extraOptions (zxingToBwip c1Barcode.format) c1Barcode.extra).2
      (zxingToBwip c1Barcode.format) c1Barcode =
      Except.ok ⟨some [], some [], true, true⟩ := rfl
  have hpb : processBarcode true okRender okRender 100 100 [] c1Barcode =
      Except.ok (some c1Extracted) := by
    simp only [processBarcode]
    rw [if_neg (by decide), hregen, hlab]
    rfl
  rw [processPage, if_neg (by decide), extractPageBarcodes, hpb, extractPageBarcodes]
  rfl

/-- Witness for the C1 theorem at the concrete strict-datamatrix
scenario. -/
theorem strict_implies_eligible_rawBytes_witness :
    processPage true okRender okRender 100 100 "" [] [c1Barcode] =
      Except.ok (some c1PageEntry) ∧
    c1Extracted ∈ c1PageEntry.barcodes ∧
    c1Extracted.strict = true ∧
    ∃ b ∈ [c1Barcode],
      (c1Extracted.format = "code128" ∧ code128RawCodepoints (b.rawBytes.getD []) ≠ []) ∨
      (c1Extracted.format = "datamatrix" ∧ b.rawBytes.getD [] ≠ []) :=
  ⟨processPage_c1_eval, List.mem_singleton.mpr rfl, rfl,
    strict_implies_eligible_rawBytes true okRender okRender 100 100 "" [] [c1Barcode]
      c1PageEntry c1Extracted processPage_c1_eval (List.mem_singleton.mpr rfl) rfl⟩

/-- Inversion of the per-line candidate step: a produced candidate is the
line itself, it is not contained in the barcode bbox, and its recorded
distance is the center distance with the 10% NORTH debuff applied when —
and only when — the quantized direction is NORTH. -/
theorem labelCandidateOf_eq_some (barcodeBbox : Bbox) (minDistance : Int)
    (maxDistance : ℝ) (line : TextLine) (l : TextLine) (d : ℝ)
    (h : labelCandidateOf barcodeBbox minDistance maxDistance line = some (l, d)) :
    line = l ∧ bboxInsideOther barcodeBbox l.bbox = false ∧
    d = (if bboxDirectionOf barcodeBbox l.bbox = some CardinalDirection.NORTH then
      bboxCenterDistance barcodeBbox l.bbox + bboxCenterDistance barcodeBbox l.bbox * 0.1
    else bboxCenterDistance barcodeBbox l.bbox) := by
  simp only [labelCandidateOf] at h
  by_cases hc : bboxCenterDistance barcodeBbox line.bbox ≥ maxDistance ∨
      bboxCenterDistance barcodeBbox line.bbox ≤ (minDistance : ℝ) ∨
      bboxInsideOther barcodeBbox line.bbox = true
  · rw [if_pos hc] at h
    exact Option.noConfusion h
  · rw [if_neg hc] at h
    injection h with h'
    have h1 : line = l := congrArg Prod.fst h'
    have h2 : (if bboxDirectionOf barcodeBbox line.bbox = some CardinalDirection.NORTH then
        bboxCenterDistance barcodeBbox line.bbox +
          bboxCenterDistance barcodeBbox line.bbox * 0.1
      else bboxCenterDistance barcodeBbox line.bbox) = d := congrArg Prod.snd h'
    subst h1
    push_neg at hc
    refine ⟨rfl, ?_, h2.symm⟩
    rcases hc with ⟨-, -, hin⟩
    revert hin
    cases bboxInsideOther barcodeBbox line.bbox <;> intro hin
    · rfl
    · exact absurd rfl hin

/-- C4: for every barcode bbox and every set of page text lines, a text
line whose bbox is fully contained inside the barcode's bbox is never the
candidate selected by the label associator. -/
theorem contained_line_never_selected (barcodeBbox : Bbox)
    (pageWidth pageHeight : Nat) (textLines : List TextLine) (l : TextLine) (d : ℝ)
    (h : bboxInsideOther barcodeBbox l.bbox = true) :
    labelSelected barcodeBbox pageWidth pageHeight textLines ≠ some (l, d) := by
  intro hsel
  rw [labelSelected] at hsel
  obtain ⟨ys, hcons⟩ := List.head?_eq_some_iff.mp hsel
  have hmem : (l, d) ∈ (labelCandidates barcodeBbox pageWidth pageHeight textLines).mergeSort
      (fun a b => decide (a.2 ≤ b.2)) := by
    rw [hcons]
    exact List.mem_cons_self _ _
  rw [List.mem_mergeSort] at hmem
  simp only [labelCandidates, List.mem_filterMap] at hmem
  obtain ⟨line, hline, hf⟩ := hmem
  obtain ⟨-, hins, -⟩ := labelCandidateOf_eq_some _ _ _ _ _ _ hf
  rw [h] at hins
  exact Bool.noConfusion hins

/-- Witness for the C4 theorem: a line strictly inside the barcode bbox is
not the selected label candidate. -/
theorem contained_line_never_selected_witness :
    bboxInsideOther ⟨0, 0, 100, 100⟩ (TextLine.mk "inside" ⟨10, 10, 20, 20⟩).bbox = true ∧
    labelSelected ⟨0, 0, 100, 100⟩ 100 100 [TextLine.mk "inside" ⟨10, 10, 20, 20⟩] ≠
      some (TextLine.mk "inside" ⟨10, 10, 20, 20⟩, 0) :=
  ⟨by decide, contained_line_never_selected ⟨0, 0, 100, 100⟩ 100 100
    [TextLine.mk "inside" ⟨10, 10, 20, 20⟩] (TextLine.mk "inside" ⟨10, 10, 20, 20⟩) 0
    (by decide)⟩

/-- The barcode bbox of the C5 scenario, with center `(25, 5)`. -/
def c5BarcodeBbox : Bbox := ⟨20, 0, 30, 10⟩

/-- The text line of the C5 scenario, with center `(5, 5)`: horizontally
aligned with the barcode center, so its distance is the exact 1-D
difference `20`, and the quantizer classifies it as EAST
(`atan2(0, 20) = 0`). -/
def c5Line : TextLine := ⟨"west label", ⟨0, 0, 10, 10⟩⟩

/-- Unfolding lemma for `bboxDirectionOf`. -/
theorem bboxDirectionOf_def (bboxA bboxB : Bbox) :
    bboxDirectionOf bboxA bboxB = directionOfRadians
      (atan2 (((bboxCenterPoint bboxA).y : ℝ) - ((bboxCenterPoint bboxB).y : ℝ))
        (((bboxCenterPoint bboxA).x : ℝ) - ((bboxCenterPoint bboxB).x : ℝ))) := rfl

/-- In the C5 scenario the quantized direction of the line relative to the
barcode is EAST. -/
theorem c5_direction :
    bboxDirectionOf c5BarcodeBbox c5Line.bbox = some CardinalDirection.EAST := by
  rw [bboxDirectionOf_def]
  have hx1 : (((bboxCenterPoint c5BarcodeBbox).x : Int) : ℝ) = 25 := by
    have h : (bboxCenterPoint c5BarcodeBbox).x = 25 := by decide
    rw [h]
    norm_num
  have hy1 : (((bboxCenterPoint c5BarcodeBbox).y : Int) : ℝ) = 5 := by
    have h : (bboxCenterPoint c5BarcodeBbox).y = 5 := by decide
    rw [h]
    norm_num
  have hx2 : (((bboxCenterPoint c5Line.bbox).x : Int) : ℝ) = 5 := by
    have h : (bboxCenterPoint c5Line.bbox).x = 5 := by decide
    rw [h]
    norm_num
  have hy2 : (((bboxCenterPoint c5Line.bbox).y : Int) : ℝ) = 5 := by
    have h : (bboxCenterPoint c5Line.bbox).y = 5 := by decide
    rw [h]
    norm_num
  rw [hx1, hy1, hx2, hy2]
  have hy : (5 : ℝ) - 5 = 0 := by norm_num
  have hx : (25 : ℝ) - 5 = 20 := by norm_num
  rw [hy, hx]
  have harg : atan2 0 20 = 0 := by
    rw [atan2]
    have h20 : Complex.mk 20 0 = ((20 : ℝ) : ℂ) := rfl
    rw [h20]
    exact Complex.arg_ofReal_of_nonneg (by norm_num)
  rw [harg, directionOfRadians, if_pos (Or.inr (by norm_num))]

/-- In the C5 scenario the center distance is exactly `20` (the 1-D
branch of `bboxCenterDistance`). -/
theorem c5_distance : bboxCenterDistance c5BarcodeBbox c5Line.bbox = 20 := by
  simp only [bboxCenterDistance]
  rw [if_neg (by decide), if_pos (by decide)]
  have h1 : (bboxCenterPoint c5BarcodeBbox).x = 25 := by decide
  have h2 : (bboxCenterPoint c5Line.bbox).x = 5 := by decide
  rw [h1, h2]
  norm_num

/-- In the C5 scenario the candidate list is exactly the one line with
*unpenalized* distance `20`. -/
theorem c5_candidates_eval :
    labelCandidates c5BarcodeBbox 100 100 [c5Line] = [(c5Line, 20)] := by
  simp only [labelCandidates]
  have hmin : min (ushr1 (c5BarcodeBbox.x1 - c5BarcodeBbox.x0))
      (ushr1 (c5BarcodeBbox.y1 - c5BarcodeBbox.y0)) = 5 := by decide
  rw [hmin]
  have hmax : (((max 100 100 : Nat)) : ℝ) * 0.25 = 25 := by norm_num
  rw [hmax, List.filterMap_cons]
  have hcand : labelCandidateOf c5BarcodeBbox 5 25 c5Line = some (c5Line, 20) := by
    simp only [labelCandidateOf]
    rw [c5_distance]
    rw [if_neg (by push_neg; refine ⟨by norm_num, by norm_num, by decide⟩)]
    rw [c5_direction, if_neg (by decide)]
  rw [hcand, List.filterMap_nil]

/-- C5 counterexample: the one surviving candidate of the scenario is EAST
of the barcode, yet its recorded distance is the raw center distance `20`
— the code applies no `+5%` penalty to EAST (or WEST, or SOUTH) lines,
only the `+10%` NORTH debuff exists. -/
theorem east_candidate_gets_no_penalty :
    bboxDirectionOf c5BarcodeBbox c5Line.bbox = some CardinalDirection.EAST ∧
    bboxCenterDistance c5BarcodeBbox c5Line.bbox = 20 ∧
    labelCandidates c5BarcodeBbox 100 100 [c5Line] = [(c5Line, 20)] ∧
    (20 : ℝ) ≠ 20 + 20 * 0.05 :=
  ⟨c5_direction, c5_distance, c5_candidates_eval, by norm_num⟩

/-- C5 (amended): for every candidate text line surviving the distance
filters, the label associator records the center distance with a `+10%`
penalty exactly when the line is NORTH of the barcode, and *no* penalty
(0%) when it is EAST, WEST, or SOUTH, before selecting the
minimum-penalized-distance candidate. -/
theorem candidate_penalty_north_only (barcodeBbox : Bbox)
    (pageWidth pageHeight : Nat) (textLines : List TextLine) (l : TextLine) (d : ℝ)
    (h : (l, d) ∈ labelCandidates barcodeBbox pageWidth pageHeight textLines) :
    d = (if bboxDirectionOf barcodeBbox l.bbox = some CardinalDirection.NORTH then
      bboxCenterDistance barcodeBbox l.bbox + bboxCenterDistance barcodeBbox l.bbox * 0.1
    else bboxCenterDistance barcodeBbox l.bbox) := by
  simp only [labelCandidates, List.mem_filterMap] at h
  obtain ⟨line, hline, hf⟩ := h
  obtain ⟨h1, -, hd⟩ := labelCandidateOf_eq_some _ _ _ _ _ _ hf
  exact hd

/-- Witness for the amended C5 theorem at the EAST-line scenario. -/
theorem candidate_penalty_north_only_witness :
    (c5Line, (20 : ℝ)) ∈ labelCandidates c5BarcodeBbox 100 100 [c5Line] ∧
    (20 : ℝ) = (if bboxDirectionOf c5BarcodeBbox c5Line.bbox = some CardinalDirection.NORTH
      then bboxCenterDistance c5BarcodeBbox c5Line.bbox +
        bboxCenterDistance c5BarcodeBbox c5Line.bbox * 0.1
      else bboxCenterDistance c5BarcodeBbox c5Line.bbox) :=
  ⟨by rw [c5_candidates_eval]; exact List.mem_singleton.mpr rfl,
    candidate_penalty_north_only c5BarcodeBbox 100 100 [c5Line] c5Line 20
      (by rw [c5_candidates_eval]; exact List.mem_singleton.mpr rfl)⟩
